import Mathlib

/-!
Shallow embedding of the Dash regtest test-data generator
(`generate.py`, `generator/rpc_client.py`, `generator/errors.py`).

External effects are supplied by oracle environments: the daemon's answers to
RPC queries (balances, UTXO counts, success or failure of a send) and the
values drawn from the random module are inputs of each modelled operation.
Each operation returns the sequence of daemon-mutating RPC requests it issues
(its trace of `send`/`mine` effects), the updated statistics counters, and,
where the Python code can let an exception escape, the exception raised.
Monetary amounts are rationals; Python floats are modelled exactly by ℚ.
-/

namespace Regtest

/-- The three counters of `Generator.stats` (generate.py lines 73-77). -/
structure Stats where
  blocks_generated : Nat
  transactions_created : Nat
  utxo_replenishments : Nat
deriving Repr, DecidableEq

/-- `Generator.__init__` initialises every counter to zero (generate.py 73-77). -/
def initStats : Stats := ⟨0, 0, 0⟩

/-- Pointwise order on the statistics counters. -/
def Stats.le (a b : Stats) : Prop :=
  a.blocks_generated ≤ b.blocks_generated ∧
  a.transactions_created ≤ b.transactions_created ∧
  a.utxo_replenishments ≤ b.utxo_replenishments

/-- The Python exception classes that the generator raises or catches
(generator/errors.py, plus the two built-in exceptions caught in
`DashRPCClient.call`).  `otherExc` stands for any exception outside the
generator's own hierarchy (caught by `except Exception`). -/
inductive PyErr where
  | insufficientFunds
  | rpcError (code : Option Int)
  | dashdConnection
  | transactionCreation
  | timeoutExpired
  | connectionRefused
  | otherExc
deriving Repr, DecidableEq

/-- Whether the exception is a `GeneratorError` subclass (errors.py: `RPCError`,
`InsufficientFundsError`, `TransactionCreationError` and `DashdConnectionError`
all derive from `GeneratorError`; the two built-ins and `otherExc` do not). -/
def PyErr.isGeneratorError : PyErr → Bool
  | .insufficientFunds => true
  | .rpcError _ => true
  | .dashdConnection => true
  | .transactionCreation => true
  | _ => false

/-- Whether the exception is `RPCError` or a subclass of it.  Note that
`InsufficientFundsError` derives from `GeneratorError` directly, NOT from
`RPCError` (errors.py line 21), while `DashdConnectionError` does derive from
`RPCError` (errors.py line 45). -/
def PyErr.isRPCError : PyErr → Bool
  | .rpcError _ => true
  | .dashdConnection => true
  | _ => false

/-- Whether an `Except` value is a success. -/
def isOkE {ε α : Type} : Except ε α → Bool
  | .ok _ => true
  | .error _ => false

/-- A daemon-mutating RPC request issued by the generator: a payment attempt
(`sendtoaddress` is a `send` with a single output, `sendmany` a `send` with the
recipients dictionary) or a `generatetoaddress` mining request. -/
inductive Effect where
  | send (wallet : String) (outputs : List (String × ℚ))
  | mine (count : Nat) (addr : String)
deriving Repr, DecidableEq

/-- Whether the effect is a mining request. -/
def Effect.isMine : Effect → Bool
  | .mine _ _ => true
  | _ => false

/-- Whether the effect is a payment request. -/
def Effect.isSend : Effect → Bool
  | .send _ _ => true
  | _ => false

/-- Whether the effect is a payment request issued from wallet `w`. -/
def Effect.isSendFrom (w : String) : Effect → Bool
  | .send w' _ => w' == w
  | _ => false

/-- Python's `random.randint(a, b)` (inclusive bounds), driven by an arbitrary
oracle draw `k`: the result is `a + k % (b - a + 1)`, always within `[a, b]`. -/
def randint (a b k : Nat) : Nat := a + k % (b - a + 1)

/-- Python's `random.uniform(a, b)`, driven by an oracle draw `u ∈ [0, 1)`. -/
def uniform (a b u : ℚ) : ℚ := a + (b - a) * u

/-- Python's `round(x, 8)`: rounding to 8 decimal places (ties, which the
generator's claims never depend on, are sent to the nearest integer by
Mathlib's `round`). -/
def round8 (x : ℚ) : ℚ := (round (x * 100000000) : ℤ) / 100000000

/-- The generation parameters of `Config` used by the modelled core
(generate.py lines 40-58). -/
structure Config where
  target_blocks : Int
  batch_size : Nat
  min_utxo_threshold : Nat
  target_utxo_count : Nat
  dashd_wallet : String
  tx_probability_none : ℚ
  tx_probability_low : ℚ
  tx_probability_medium : ℚ

/-- `Generator._determine_tx_count` (generate.py lines 522-533): `r` is the
`random.random()` draw and `k` the oracle draw behind the chosen
`random.randint` call. -/
def determineTxCount (cfg : Config) (r : ℚ) (k : Nat) : Nat :=
  if r < cfg.tx_probability_none then 0
  else if r < cfg.tx_probability_low then randint 1 3 k
  else if r < cfg.tx_probability_medium then randint 4 10 k
  else randint 11 25 k

theorem randint_lower (a b k : Nat) : a ≤ randint a b k := by
  simp [randint]

theorem randint_upper (a b k : Nat) (h : a ≤ b) : randint a b k ≤ b := by
  have : k % (b - a + 1) < b - a + 1 := Nat.mod_lt _ (Nat.succ_pos _)
  simp only [randint]
  omega

/-- C4: for every sampled `r`, `_determine_tx_count` returns 0 below the
`none` threshold, a value in [1,3] between the `none` and `low` thresholds,
a value in [4,10] between the `low` and `medium` thresholds, a value in
[11,25] above the `medium` threshold, and in all cases a value in
{0} ∪ [1,25]. The threshold-ordering hypotheses hold for every density
configuration shipped in `main` (generate.py lines 796-817). -/
theorem determine_tx_count_bands (cfg : Config) (r : ℚ) (k : Nat)
    (h1 : cfg.tx_probability_none ≤ cfg.tx_probability_low)
    (h2 : cfg.tx_probability_low ≤ cfg.tx_probability_medium) :
    (r < cfg.tx_probability_none → determineTxCount cfg r k = 0) ∧
    (cfg.tx_probability_none ≤ r → r < cfg.tx_probability_low →
      1 ≤ determineTxCount cfg r k ∧ determineTxCount cfg r k ≤ 3) ∧
    (cfg.tx_probability_low ≤ r → r < cfg.tx_probability_medium →
      4 ≤ determineTxCount cfg r k ∧ determineTxCount cfg r k ≤ 10) ∧
    (cfg.tx_probability_medium ≤ r →
      11 ≤ determineTxCount cfg r k ∧ determineTxCount cfg r k ≤ 25) ∧
    (determineTxCount cfg r k = 0 ∨
      (1 ≤ determineTxCount cfg r k ∧ determineTxCount cfg r k ≤ 25)) := by
  refine ⟨?_, ?_, ?_, ?_, ?_⟩
  · intro h
    simp [determineTxCount, h]
  · intro hge hlt
    have hnot : ¬ r < cfg.tx_probability_none := not_lt.mpr hge
    simp only [determineTxCount, if_neg hnot, if_pos hlt]
    exact ⟨randint_lower 1 3 k, randint_upper 1 3 k (by norm_num)⟩
  · intro hge hlt
    have hn1 : ¬ r < cfg.tx_probability_none := not_lt.mpr (le_trans h1 hge)
    have hn2 : ¬ r < cfg.tx_probability_low := not_lt.mpr hge
    simp only [determineTxCount, if_neg hn1, if_neg hn2, if_pos hlt]
    exact ⟨randint_lower 4 10 k, randint_upper 4 10 k (by norm_num)⟩
  · intro hge
    have hn1 : ¬ r < cfg.tx_probability_none :=
      not_lt.mpr (le_trans (le_trans h1 h2) hge)
    have hn2 : ¬ r < cfg.tx_probability_low := not_lt.mpr (le_trans h2 hge)
    have hn3 : ¬ r < cfg.tx_probability_medium := not_lt.mpr hge
    simp only [determineTxCount, if_neg hn1, if_neg hn2, if_neg hn3]
    exact ⟨randint_lower 11 25 k, randint_upper 11 25 k (by norm_num)⟩
  · by_cases hc : r < cfg.tx_probability_none
    · left
      simp [determineTxCount, hc]
    · right
      simp only [determineTxCount, if_neg hc]
      by_cases hl : r < cfg.tx_probability_low
      · simp only [if_pos hl]
        exact ⟨randint_lower 1 3 k,
          le_trans (randint_upper 1 3 k (by norm_num)) (by norm_num)⟩
      · simp only [if_neg hl]
        by_cases hm : r < cfg.tx_probability_medium
        · simp only [if_pos hm]
          exact ⟨le_trans (by norm_num) (randint_lower 4 10 k),
            le_trans (randint_upper 4 10 k (by norm_num)) (by norm_num)⟩
        · simp only [if_neg hm]
          exact ⟨le_trans (by norm_num) (randint_lower 11 25 k),
            randint_upper 11 25 k (by norm_num)⟩

/-- The `normal` density configuration from `main` (generate.py 807-811),
used to witness the band theorem at concrete inputs. -/
def normalConfig : Config :=
  { target_blocks := 100
    batch_size := 50
    min_utxo_threshold := 150
    target_utxo_count := 200
    dashd_wallet := "default"
    tx_probability_none := 3/10
    tx_probability_low := 7/10
    tx_probability_medium := 9/10 }

theorem determine_tx_count_bands_witness :
    1 ≤ determineTxCount normalConfig (1/2) 7 ∧
    determineTxCount normalConfig (1/2) 7 ≤ 3 :=
  (determine_tx_count_bands normalConfig (1/2) 7 (by norm_num [normalConfig])
    (by norm_num [normalConfig])).2.1
    (by norm_num [normalConfig]) (by norm_num [normalConfig])

/-- Insertion into a Python dict rendered as an ordered association list:
assigning to an existing key overwrites its value in place, a new key is
appended. -/
def insertPair : List (String × ℚ) → String → ℚ → List (String × ℚ)
  | [], k, v => [(k, v)]
  | (k', v') :: rest, k, v =>
    if k' = k then (k, v) :: rest else (k', v') :: insertPair rest k v

/-- Oracle environment for `_split_utxos` (generate.py 432-471): per-iteration
`listunspent` count, `getbalance` answer, whether the iteration's `sendmany`
succeeds, the `getnewaddress` answers used to build the recipients dict, and
the default wallet's mining address. -/
structure SplitEnv where
  utxoCount : Nat → Nat
  balance : Nat → ℚ
  sendOk : Nat → Bool
  newAddr : Nat → Nat → String
  defaultAddr : String

/-- The recipients dict of one `_split_utxos` iteration (generate.py 454-457):
`min(50, target_count - current_count)` fresh addresses, each mapped to 1.0. -/
def splitBatch (env : SplitEnv) (iteration target current : Nat) :
    List (String × ℚ) :=
  (List.range (min 50 (target - current))).foldl
    (fun acc i => insertPair acc (env.newAddr iteration i) 1) []

/-- The `while iteration < 10` loop of `_split_utxos` (generate.py 439-465),
recursing on the remaining loop allowance.  Each pass: read the UTXO count and
break if it reaches the target; read the balance and break if it is below 10;
attempt the batched `sendmany` (recorded as a `send` effect) and break on
failure — the `except (RPCError, InsufficientFundsError)` arm swallows the
error; otherwise mine one block and continue with `iteration + 1`. -/
def splitLoopAux (walletName : String) (env : SplitEnv) (target : Nat) :
    Nat → Nat → List Effect
  | _, 0 => []
  | iteration, fuel + 1 =>
    let current := env.utxoCount iteration
    if target ≤ current then []
    else if env.balance iteration < 10 then []
    else
      let recipients := splitBatch env iteration target current
      if env.sendOk iteration then
        .send walletName recipients :: .mine 1 env.defaultAddr ::
          splitLoopAux walletName env target (iteration + 1) fuel
      else [.send walletName recipients]

/-- `Generator._split_utxos` (generate.py 432-471): the loop starts at
iteration 0 with a cap of 10 passes. -/
def splitUtxos (walletName : String) (env : SplitEnv) (target : Nat) :
    List Effect :=
  splitLoopAux walletName env target 0 10

theorem insertPair_length (l : List (String × ℚ)) (k : String) (v : ℚ) :
    (insertPair l k v).length ≤ l.length + 1 := by
  induction l with
  | nil => simp [insertPair]
  | cons hd tl ih =>
    simp only [insertPair]
    split
    · simp
    · simpa using Nat.succ_le_succ ih

theorem splitBatch_length (env : SplitEnv) (iteration target current : Nat) :
    (splitBatch env iteration target current).length ≤ 50 := by
  have key : ∀ (l : List Nat) (acc : List (String × ℚ)),
      (l.foldl (fun acc i => insertPair acc (env.newAddr iteration i) 1)
        acc).length ≤ acc.length + l.length := by
    intro l
    induction l with
    | nil => intro acc; simp
    | cons hd tl ih =>
      intro acc
      calc (List.foldl _ (insertPair acc (env.newAddr iteration hd) 1)
              tl).length
          ≤ (insertPair acc (env.newAddr iteration hd) 1).length + tl.length :=
            ih _
        _ ≤ (acc.length + 1) + tl.length :=
            Nat.add_le_add_right (insertPair_length _ _ _) _
        _ = acc.length + (hd :: tl).length := by simp; omega
  have h := key (List.range (min 50 (target - current))) []
  simp only [List.length_nil, List.length_range, Nat.zero_add] at h
  exact le_trans h (le_trans (Nat.min_le_left _ _) (by norm_num))

theorem splitLoopAux_send_count (walletName : String) (env : SplitEnv)
    (target : Nat) : ∀ fuel iteration,
    ((splitLoopAux walletName env target iteration fuel).filter
      Effect.isSend).length ≤ fuel := by
  intro fuel
  induction fuel with
  | zero => intro iteration; simp [splitLoopAux]
  | succ n ih =>
    intro iteration
    simp only [splitLoopAux]
    split
    · simp
    · split
      · simp
      · split
        · simp only [List.filter, Effect.isSend, List.length_cons]
          exact Nat.succ_le_succ (ih (iteration + 1))
        · simp [Effect.isSend]

theorem splitLoopAux_mine_count (walletName : String) (env : SplitEnv)
    (target : Nat) : ∀ fuel iteration,
    ((splitLoopAux walletName env target iteration fuel).filter
      Effect.isMine).length ≤ fuel := by
  intro fuel
  induction fuel with
  | zero => intro iteration; simp [splitLoopAux]
  | succ n ih =>
    intro iteration
    simp only [splitLoopAux]
    split
    · simp
    · split
      · simp
      · split
        · simp only [List.filter, Effect.isSend, Effect.isMine,
            List.length_cons]
          exact le_trans (Nat.succ_le_succ (ih (iteration + 1))) (by omega)
        · simp [Effect.isMine]

theorem splitLoopAux_batch_bound (walletName : String) (env : SplitEnv)
    (target : Nat) : ∀ fuel iteration w outs,
    Effect.send w outs ∈ splitLoopAux walletName env target iteration fuel →
    outs.length ≤ 50 := by
  intro fuel
  induction fuel with
  | zero => intro iteration w outs h; simp [splitLoopAux] at h
  | succ n ih =>
    intro iteration w outs h
    simp only [splitLoopAux] at h
    split at h
    · simp at h
    · split at h
      · simp at h
      · split at h
        · rcases List.mem_cons.mp h with heq | h2
          · cases heq
            exact splitBatch_length env iteration target _
          · rcases List.mem_cons.mp h2 with heq | h3
            · cases heq
            · exact ih (iteration + 1) w outs h3
        · rcases List.mem_cons.mp h with heq | h2
          · cases heq
            exact splitBatch_length env iteration target _
          · simp at h2

theorem splitLoopAux_early_stop (walletName : String) (env : SplitEnv)
    (target : Nat) (j : Nat) (hj : env.sendOk j = false) :
    ∀ fuel iteration, iteration ≤ j →
    ((splitLoopAux walletName env target iteration fuel).filter
      Effect.isMine).length ≤ j - iteration := by
  intro fuel
  induction fuel with
  | zero => intro iteration _; simp [splitLoopAux]
  | succ n ih =>
    intro iteration hle
    simp only [splitLoopAux]
    split
    · simp
    · split
      · simp
      · split
        · rename_i hsend
          have hne : iteration ≠ j := by
            intro hcontra
            rw [hcontra] at hsend
            rw [hj] at hsend
            exact Bool.false_ne_true hsend
          have hlt : iteration < j := lt_of_le_of_ne hle hne
          simp only [List.filter, Effect.isSend, Effect.isMine,
            List.length_cons]
          have := ih (iteration + 1) hlt
          omega
        · simp [Effect.isMine]

/-- C1: `_split_utxos` performs at most 10 send-and-mine passes (at most 10
`sendmany` attempts and at most 10 mined blocks), every batched payment
carries at most 50 outputs, a send failure at pass `j` stops the loop (no
block is mined at or after pass `j`) without raising — the function returns a
trace rather than an error — and a target at or below the current UTXO count
yields an empty trace: no payment issued and no block mined. -/
theorem split_utxos_spec (walletName : String) (env : SplitEnv)
    (target : Nat) :
    ((splitUtxos walletName env target).filter Effect.isSend).length ≤ 10 ∧
    ((splitUtxos walletName env target).filter Effect.isMine).length ≤ 10 ∧
    (∀ w outs, Effect.send w outs ∈ splitUtxos walletName env target →
      outs.length ≤ 50) ∧
    (target ≤ env.utxoCount 0 → splitUtxos walletName env target = []) ∧
    (∀ j, env.sendOk j = false →
      ((splitUtxos walletName env target).filter Effect.isMine).length ≤ j) := by
  refine ⟨splitLoopAux_send_count walletName env target 10 0,
    splitLoopAux_mine_count walletName env target 10 0,
    fun w outs h => splitLoopAux_batch_bound walletName env target 10 0 w outs h,
    ?_, ?_⟩
  · intro h
    simp [splitUtxos, splitLoopAux, h]
  · intro j hj
    have := splitLoopAux_early_stop walletName env target j hj 10 0 (Nat.zero_le j)
    simpa using this

/-- A concrete split environment: 5 UTXOs on hand, ample balance, sends
succeed. -/
def splitEnvA : SplitEnv :=
  { utxoCount := fun _ => 5
    balance := fun _ => 100
    sendOk := fun _ => true
    newAddr := fun i j => "a" ++ toString i ++ "x" ++ toString j
    defaultAddr := "d0" }

theorem split_utxos_spec_witness :
    splitUtxos "default" splitEnvA 3 = [] :=
  (split_utxos_spec "default" splitEnvA 3).2.2.2.1 (by decide)

/-- The substring tests that `DashRPCClient._handle_error` performs on the
lowercased stderr of a failed `dash-cli` invocation (rpc_client.py 96-112):
each field records whether the corresponding literal occurs in
`stderr.lower()`. -/
structure Stderr where
  hasErrorCode6 : Bool
  hasInsufficientFunds : Bool
  hasErrorCode28 : Bool
  hasCouldNotConnect : Bool
  hasConnectionRefused : Bool
deriving Repr, DecidableEq

/-- `DashRPCClient._handle_error` (rpc_client.py 96-112): sequentially tests
the stderr text and raises the first matching typed error; the final
unconditional raise makes a normal return impossible (each Python `raise`
ends the function, so the sequential tests form this if-chain).  Error
message strings are elided; only the error class and numeric code are
modelled. -/
def handleError (s : Stderr) : Except PyErr Unit :=
  if s.hasErrorCode6 || s.hasInsufficientFunds then
    .error .insufficientFunds
  else if s.hasErrorCode28 then
    .error (.rpcError (some (-28)))
  else if s.hasCouldNotConnect || s.hasConnectionRefused then
    .error .dashdConnection
  else
    .error (.rpcError none)

/-- The per-attempt outcome of running `dash-cli` inside
`DashRPCClient._execute` (rpc_client.py 58-94): a decoded result (abstracted
to a number), a raised `subprocess.TimeoutExpired`, a raised built-in
`ConnectionRefusedError`, or a nonzero exit whose stderr is handed to
`_handle_error`. -/
inductive ExecOutcome where
  | ok (v : Nat)
  | timeoutExpired
  | connectionRefusedExc
  | stderrFailure (s : Stderr)
deriving Repr, DecidableEq

/-- `DashRPCClient._execute` (rpc_client.py 58-94) for a given subprocess
outcome.  The `.ok 0` arm for a normal `_handle_error` return is unreachable:
`handleError` always throws. -/
def execute (o : ExecOutcome) : Except PyErr Nat :=
  match o with
  | .ok v => .ok v
  | .timeoutExpired => .error .timeoutExpired
  | .connectionRefusedExc => .error .connectionRefused
  | .stderrFailure s =>
    match handleError s with
    | .error e => .error e
    | .ok _ => .ok 0

deriving instance DecidableEq for Except

/-- The observable behaviour of one `DashRPCClient.call`: its final result or
raised error, the number of `_execute` attempts made, and the list of
`time.sleep` durations (in seconds) performed between attempts. -/
structure CallResult where
  result : Except PyErr Nat
  attempts : Nat
  sleeps : List Nat
deriving Repr, DecidableEq

/-- The `for attempt in range(self.max_retries)` loop of `DashRPCClient.call`
(rpc_client.py 39-56), recursing on the remaining attempts.  A
`subprocess.TimeoutExpired` on the last attempt escalates to
`RPCError(code=-1)`, a `ConnectionRefusedError` on the last attempt escalates
to `DashdConnectionError`; on earlier attempts both sleep `2 ** attempt`
seconds and retry.  Any other raised error propagates immediately.  The raise
after the loop (line 56) is reached only when the loop body never runs. -/
def callFrom (env : Nat → ExecOutcome) (maxRetries : Nat) :
    Nat → Nat → CallResult
  | _, 0 => ⟨.error (.rpcError none), 0, []⟩
  | attempt, fuel + 1 =>
    match execute (env attempt) with
    | .ok v => ⟨.ok v, 1, []⟩
    | .error .timeoutExpired =>
      if attempt = maxRetries - 1 then ⟨.error (.rpcError (some (-1))), 1, []⟩
      else
        let r := callFrom env maxRetries (attempt + 1) fuel
        ⟨r.result, r.attempts + 1, 2 ^ attempt :: r.sleeps⟩
    | .error .connectionRefused =>
      if attempt = maxRetries - 1 then ⟨.error .dashdConnection, 1, []⟩
      else
        let r := callFrom env maxRetries (attempt + 1) fuel
        ⟨r.result, r.attempts + 1, 2 ^ attempt :: r.sleeps⟩
    | .error e => ⟨.error e, 1, []⟩

/-- `DashRPCClient.call` (rpc_client.py 35-56): the retry loop starting at
attempt 0 with `max_retries` loop passes. -/
def callModel (env : Nat → ExecOutcome) (maxRetries : Nat) : CallResult :=
  callFrom env maxRetries 0 maxRetries

theorem handleError_always_raises (s : Stderr) :
    ∃ e, handleError s = .error e := by
  simp only [handleError]
  split
  · exact ⟨_, rfl⟩
  · split
    · exact ⟨_, rfl⟩
    · split
      · exact ⟨_, rfl⟩
      · exact ⟨_, rfl⟩

theorem handleError_gen (s : Stderr) (e : PyErr)
    (he : handleError s = .error e) : e.isGeneratorError = true := by
  simp only [handleError] at he
  split at he
  · cases he; rfl
  · split at he
    · cases he; rfl
    · split at he
      · cases he; rfl
      · cases he; rfl

theorem callFrom_generator_error (env : Nat → ExecOutcome) (maxRetries : Nat) :
    ∀ fuel attempt,
    (∃ v, (callFrom env maxRetries attempt fuel).result = .ok v) ∨
    (∃ e, (callFrom env maxRetries attempt fuel).result = .error e ∧
      e.isGeneratorError = true) := by
  intro fuel
  induction fuel with
  | zero =>
    intro attempt
    exact .inr ⟨.rpcError none, rfl, rfl⟩
  | succ n ih =>
    intro attempt
    cases hev : env attempt with
    | ok v =>
      exact .inl ⟨v, by simp [callFrom, execute, hev]⟩
    | timeoutExpired =>
      simp only [callFrom, execute, hev]
      split
      · exact .inr ⟨.rpcError (some (-1)), rfl, rfl⟩
      · rcases ih (attempt + 1) with ⟨v, hv⟩ | ⟨e', he', hg⟩
        · exact .inl ⟨v, hv⟩
        · exact .inr ⟨e', he', hg⟩
    | connectionRefusedExc =>
      simp only [callFrom, execute, hev]
      split
      · exact .inr ⟨.dashdConnection, rfl, rfl⟩
      · rcases ih (attempt + 1) with ⟨v, hv⟩ | ⟨e', he', hg⟩
        · exact .inl ⟨v, hv⟩
        · exact .inr ⟨e', he', hg⟩
    | stderrFailure s =>
      obtain ⟨e, he⟩ := handleError_always_raises s
      have hg := handleError_gen s e he
      refine .inr ⟨e, ?_, hg⟩
      simp only [callFrom, execute, hev, he]
      cases e <;> simp_all [PyErr.isGeneratorError]

/-- C10: `_handle_error` always raises, classifying the stderr in source
order — insufficient-funds markers (error code -6 or the phrase) first, then
error code -28 as an `RPCError` with that code, then the two
connection-failure phrases as `DashdConnectionError`, and a generic `RPCError`
otherwise — and consequently `DashRPCClient.call` either returns a decoded
result or raises a `GeneratorError` subclass. -/
theorem handle_error_classification (s : Stderr) (env : Nat → ExecOutcome)
    (maxRetries : Nat) :
    (∃ e, handleError s = .error e) ∧
    ((s.hasErrorCode6 = true ∨ s.hasInsufficientFunds = true) →
      handleError s = .error .insufficientFunds) ∧
    (s.hasErrorCode6 = false → s.hasInsufficientFunds = false →
      s.hasErrorCode28 = true →
      handleError s = .error (.rpcError (some (-28)))) ∧
    (s.hasErrorCode6 = false → s.hasInsufficientFunds = false →
      s.hasErrorCode28 = false →
      (s.hasCouldNotConnect = true ∨ s.hasConnectionRefused = true) →
      handleError s = .error .dashdConnection) ∧
    (s.hasErrorCode6 = false → s.hasInsufficientFunds = false →
      s.hasErrorCode28 = false → s.hasCouldNotConnect = false →
      s.hasConnectionRefused = false →
      handleError s = .error (.rpcError none)) ∧
    ((∃ v, (callModel env maxRetries).result = .ok v) ∨
      (∃ e, (callModel env maxRetries).result = .error e ∧
        e.isGeneratorError = true)) := by
  refine ⟨handleError_always_raises s, ?_, ?_, ?_, ?_,
    callFrom_generator_error env maxRetries maxRetries 0⟩
  · rintro (h | h) <;> simp [handleError, h]
  · intro h1 h2 h3
    simp [handleError, h1, h2, h3]
  · intro h1 h2 h3 h4
    rcases h4 with h4 | h4 <;> simp [handleError, h1, h2, h3, h4]
  · intro h1 h2 h3 h4 h5
    simp [handleError, h1, h2, h3, h4, h5]

/-- A stderr mentioning only "error code: -28" (daemon still loading). -/
def stillLoadingStderr : Stderr := ⟨false, false, true, false, false⟩

theorem handle_error_classification_witness :
    handleError stillLoadingStderr = .error (.rpcError (some (-28))) :=
  (handle_error_classification stillLoadingStderr (fun _ => .ok 0)
    3).2.2.1 rfl rfl rfl

/-- An execution environment in which every attempt fails with the
daemon-still-loading stderr. -/
def envStillLoading : Nat → ExecOutcome :=
  fun _ => .stderrFailure stillLoadingStderr

/-- Counterexample to C6 as stated: a daemon-still-loading failure is NOT
retried by `DashRPCClient.call` — with `max_retries = 3` the call makes
exactly one attempt, performs no backoff sleep, and immediately propagates
`RPCError(code=-28)`. -/
theorem call_still_loading_not_retried :
    (callModel envStillLoading 3).result = .error (.rpcError (some (-28))) ∧
    (callModel envStillLoading 3).attempts = 1 ∧
    (callModel envStillLoading 3).sleeps = [] := by
  refine ⟨?_, ?_, ?_⟩ <;> rfl

/-- C6 (amended): `call` retries only the raised `subprocess.TimeoutExpired`
and built-in `ConnectionRefusedError` exceptions, up to `max_retries = 3`
attempts with `2 ** attempt` backoff sleeps (1s then 2s), escalating to
`RPCError(code=-1)` respectively `DashdConnectionError` when retries are
exhausted; every error raised by `_handle_error` — daemon-still-loading and
stderr-reported connection failures included, insufficient funds in
particular — propagates immediately after a single attempt with no sleep. -/
theorem call_retry_policy (env : Nat → ExecOutcome) (s : Stderr) (v : Nat) :
    ((∀ i, env i = .timeoutExpired) →
      callModel env 3 = ⟨.error (.rpcError (some (-1))), 3, [1, 2]⟩) ∧
    ((∀ i, env i = .connectionRefusedExc) →
      callModel env 3 = ⟨.error .dashdConnection, 3, [1, 2]⟩) ∧
    (env 0 = .stderrFailure s →
      (callModel env 3).attempts = 1 ∧ (callModel env 3).sleeps = [] ∧
      ∃ e, handleError s = .error e ∧
        (callModel env 3).result = .error e) ∧
    (env 0 = .ok v → callModel env 3 = ⟨.ok v, 1, []⟩) := by
  refine ⟨?_, ?_, ?_, ?_⟩
  · intro h
    simp [callModel, callFrom, execute, h 0, h 1, h 2]
  · intro h
    simp [callModel, callFrom, execute, h 0, h 1, h 2]
  · intro h
    obtain ⟨e, he⟩ := handleError_always_raises s
    have hg := handleError_gen s e he
    have hex : execute (env 0) = .error e := by
      simp [execute, h, he]
    refine ⟨?_, ?_, e, he, ?_⟩ <;>
      · simp only [callModel, callFrom, hex]
        cases e <;> simp_all [PyErr.isGeneratorError]
  · intro h
    simp [callModel, callFrom, execute, h]

/-- A timeout-every-attempt environment, witnessing the retry policy. -/
def envAllTimeout : Nat → ExecOutcome := fun _ => .timeoutExpired

theorem call_retry_policy_witness :
    callModel envAllTimeout 3 = ⟨.error (.rpcError (some (-1))), 3, [1, 2]⟩ :=
  (call_retry_policy envAllTimeout stillLoadingStderr 0).1 (fun _ => rfl)

/-- The outcome of one modelled generator operation: the updated statistics,
the trace of daemon-mutating RPC requests issued, and the exception escaping
the operation, if any. -/
structure OpResult where
  stats : Stats
  trace : List Effect
  raised : Option PyErr

/-- The tier→refund-amount mapping of `_refund_wallet` (generate.py 540-545):
`light` 20, `normal` 40, anything else 60. -/
def refundAmount (tier : String) : ℚ :=
  if tier = "light" then 20 else if tier = "normal" then 40 else 60

/-- Oracle environment for `_refund_wallet`: the `random.choice` over the
wallet's addresses and the outcome of the faucet's `sendtoaddress`. -/
structure RefundEnv where
  chosenAddr : String
  sendResult : Except PyErr Unit

/-- `Generator._refund_wallet` (generate.py 535-555): one `sendtoaddress` from
the faucet (`config.dashd_wallet`) to a random address of the wallet; on
success the replenishment counter is incremented; the `except RPCError` arm
swallows `RPCError` and its subclass `DashdConnectionError` only — any other
exception (note `InsufficientFundsError` is NOT an `RPCError` subclass)
propagates.  No block is mined here. -/
def refundWallet (faucet tier : String) (env : RefundEnv) (s : Stats) :
    OpResult :=
  let attempt : Effect := .send faucet [(env.chosenAddr, refundAmount tier)]
  match env.sendResult with
  | .ok _ =>
    ⟨{ s with utxo_replenishments := s.utxo_replenishments + 1 },
      [attempt], none⟩
  | .error e =>
    if e.isRPCError then ⟨s, [attempt], none⟩
    else ⟨s, [attempt], some e⟩

/-- Oracle environment for one `_create_transaction` call (generate.py
557-619): the chosen source wallet and its tier, the two `getbalance`
answers, the refund oracle, the `random.random()` shape draw, the
`random.randint(2, 5)` draw, the two `random.uniform` draws (as values in
[0,1)), the `random.choice` destination draws, and the outcome of the
single send RPC (`sendtoaddress` or `sendmany`). -/
structure TxEnv where
  sourceWallet : String
  sourceTier : String
  getbalance1 : Except PyErr ℚ
  refund : RefundEnv
  getbalance2 : Except PyErr ℚ
  shapeR : ℚ
  numOutK : Nat
  fracU : ℚ
  capU : ℚ
  destChoice : Nat → String
  sendResult : Except PyErr Unit

/-- `total_to_send` of the multi-output branch (generate.py 598):
`min(balance * random.uniform(0.2, 0.5), random.uniform(5, 15))`. -/
def multiTotal (b : ℚ) (env : TxEnv) : ℚ :=
  min (b * uniform 0.2 0.5 env.fracU) (uniform 5 15 env.capU)

/-- `amount_per_output` of the multi-output branch (generate.py 599):
`round(total_to_send / num_outputs, 8)`. -/
def multiPer (b : ℚ) (env : TxEnv) : ℚ :=
  round8 (multiTotal b env / (randint 2 5 env.numOutK : ℚ))

/-- `amount` of the simple branch (generate.py 586-587):
`round(min(balance * random.uniform(0.1, 0.5), random.uniform(1, 5)), 8)`. -/
def simpleAmount (b : ℚ) (env : TxEnv) : ℚ :=
  round8 (min (b * uniform 0.1 0.5 env.fracU) (uniform 1 5 env.capU))

/-- The `outputs` dict of the multi-output branch (generate.py 604-606):
`num_outputs` random destination draws, each assigned `amount_per_output`
(a repeated address overwrites its previous entry, as in a Python dict). -/
def mkOutputs (dest : Nat → String) (n : Nat) (amt : ℚ) :
    List (String × ℚ) :=
  (List.range n).foldl (fun acc i => insertPair acc (dest i) amt) []

/-- The balance-check-and-refund prologue of `_create_transaction`
(generate.py 562-571): query the balance; when it is below 10.0 refund the
wallet, re-query, and silently return when still below 1.0.  `.inl` carries
an early exit (silent return or escaping exception still to be caught);
`.inr` carries the operative balance with the state so far. -/
def fundingPhase (faucet : String) (env : TxEnv) (s : Stats) :
    OpResult ⊕ (ℚ × Stats × List Effect) :=
  match env.getbalance1 with
  | .error e => .inl ⟨s, [], some e⟩
  | .ok b1 =>
    if b1 < 10 then
      let r := refundWallet faucet env.sourceTier env.refund s
      match r.raised with
      | some e => .inl ⟨r.stats, r.trace, some e⟩
      | none =>
        match env.getbalance2 with
        | .error e => .inl ⟨r.stats, r.trace, some e⟩
        | .ok b2 =>
          if b2 < 1 then .inl ⟨r.stats, r.trace, none⟩
          else .inr (b2, r.stats, r.trace)
    else .inr (b1, s, [])

/-- The shape-choice-and-send part of `_create_transaction` (generate.py
573-611), operating on the balance `b` and the state `(s1, t1)` produced by
the funding prologue: with `random.random() < 0.4` build the multi-output
transaction (`sendmany` of `num_outputs = randint(2, 5)` draws), otherwise
the simple one (`sendtoaddress`); in either branch return silently when the
computed amount is below 0.01, and increment `transactions_created` only
after the send RPC succeeds. -/
def shapePhase (env : TxEnv) (b : ℚ) (s1 : Stats) (t1 : List Effect) :
    OpResult :=
  if env.shapeR < 0.4 then
    if multiPer b env < 0.01 then ⟨s1, t1, none⟩
    else
      match env.sendResult with
      | .error e =>
        ⟨s1, t1 ++ [.send env.sourceWallet
          (mkOutputs env.destChoice (randint 2 5 env.numOutK)
            (multiPer b env))], some e⟩
      | .ok _ =>
        ⟨{ s1 with transactions_created := s1.transactions_created + 1 },
          t1 ++ [.send env.sourceWallet
            (mkOutputs env.destChoice (randint 2 5 env.numOutK)
              (multiPer b env))], none⟩
  else
    if simpleAmount b env < 0.01 then ⟨s1, t1, none⟩
    else
      match env.sendResult with
      | .error e =>
        ⟨s1, t1 ++ [.send env.sourceWallet
          [(env.destChoice 0, simpleAmount b env)]], some e⟩
      | .ok _ =>
        ⟨{ s1 with transactions_created := s1.transactions_created + 1 },
          t1 ++ [.send env.sourceWallet
            [(env.destChoice 0, simpleAmount b env)]], none⟩

/-- The `try` body of `Generator._create_transaction` (generate.py 562-611):
the funding prologue followed by the shape-and-send phase. -/
def txBody (faucet : String) (env : TxEnv) (s : Stats) : OpResult :=
  match fundingPhase faucet env s with
  | .inl r => r
  | .inr (b, s1, t1) => shapePhase env b s1 t1

/-- `Generator._create_transaction` (generate.py 557-619): the two `except`
arms (`(TransactionCreationError, RPCError, InsufficientFundsError)` and
`Exception`) both swallow whatever the body raised, keeping the state the
body had already produced. -/
def createTransaction (faucet : String) (env : TxEnv) (s : Stats) :
    Stats × List Effect :=
  let r := txBody faucet env s
  (r.stats, r.trace)

theorem refundWallet_stats (faucet tier : String) (env : RefundEnv)
    (s : Stats) :
    (refundWallet faucet tier env s).stats.blocks_generated =
      s.blocks_generated ∧
    (refundWallet faucet tier env s).stats.transactions_created =
      s.transactions_created ∧
    s.utxo_replenishments ≤
      (refundWallet faucet tier env s).stats.utxo_replenishments ∧
    (refundWallet faucet tier env s).stats.utxo_replenishments ≤
      s.utxo_replenishments + 1 := by
  unfold refundWallet
  split
  · simp
  · split <;> simp

theorem refundWallet_trace (faucet tier : String) (env : RefundEnv)
    (s : Stats) :
    (refundWallet faucet tier env s).trace =
      [.send faucet [(env.chosenAddr, refundAmount tier)]] := by
  unfold refundWallet
  split
  · rfl
  · split <;> rfl

theorem fundingPhase_inl_stats (faucet : String) (env : TxEnv) (s : Stats)
    (r : OpResult) (h : fundingPhase faucet env s = .inl r) :
    r.stats.blocks_generated = s.blocks_generated ∧
    r.stats.transactions_created = s.transactions_created ∧
    s.utxo_replenishments ≤ r.stats.utxo_replenishments ∧
    r.stats.utxo_replenishments ≤ s.utxo_replenishments + 1 := by
  have hr := refundWallet_stats faucet env.sourceTier env.refund s
  rcases hb1 : env.getbalance1 with e1 | b1 <;>
    simp only [fundingPhase, hb1] at h
  · cases h
    simp
  · by_cases h10 : b1 < 10
    · rw [if_pos h10] at h
      rcases hraised : (refundWallet faucet env.sourceTier env.refund s).raised
        with _ | e <;> simp only [hraised] at h
      · rcases hb2 : env.getbalance2 with e2 | b2 <;>
          simp only [hb2] at h
        · cases h
          exact hr
        · by_cases h1b : b2 < 1
          · rw [if_pos h1b] at h
            cases h
            exact hr
          · rw [if_neg h1b] at h
            simp at h
      · cases h
        exact hr
    · rw [if_neg h10] at h
      simp at h

theorem fundingPhase_inr_stats (faucet : String) (env : TxEnv) (s : Stats)
    (b : ℚ) (s1 : Stats) (t1 : List Effect)
    (h : fundingPhase faucet env s = .inr (b, s1, t1)) :
    s1.blocks_generated = s.blocks_generated ∧
    s1.transactions_created = s.transactions_created ∧
    s.utxo_replenishments ≤ s1.utxo_replenishments ∧
    s1.utxo_replenishments ≤ s.utxo_replenishments + 1 := by
  have hr := refundWallet_stats faucet env.sourceTier env.refund s
  rcases hb1 : env.getbalance1 with e1 | b1 <;>
    simp only [fundingPhase, hb1] at h
  · simp at h
  · by_cases h10 : b1 < 10
    · rw [if_pos h10] at h
      rcases hraised : (refundWallet faucet env.sourceTier env.refund s).raised
        with _ | e <;> simp only [hraised] at h
      · rcases hb2 : env.getbalance2 with e2 | b2 <;>
          simp only [hb2] at h
        · simp at h
        · by_cases h1b : b2 < 1
          · rw [if_pos h1b] at h
            simp at h
          · rw [if_neg h1b] at h
            rw [Sum.inr.injEq, Prod.mk.injEq] at h
            rw [Prod.mk.injEq] at h
            obtain ⟨-, hs, -⟩ := h
            rw [← hs]
            exact hr
      · simp at h
    · rw [if_neg h10] at h
      rw [Sum.inr.injEq, Prod.mk.injEq] at h
      rw [Prod.mk.injEq] at h
      obtain ⟨-, hs, -⟩ := h
      rw [← hs]
      exact ⟨rfl, rfl, le_refl _, Nat.le_succ _⟩

theorem shapePhase_spec (env : TxEnv) (b : ℚ) (s1 : Stats)
    (t1 : List Effect) :
    shapePhase env b s1 t1 = ⟨s1, t1, none⟩ ∨
    (∃ outs e, env.sendResult = .error e ∧
      shapePhase env b s1 t1 =
        ⟨s1, t1 ++ [.send env.sourceWallet outs], some e⟩) ∨
    (env.sendResult = .ok () ∧ ∃ outs,
      shapePhase env b s1 t1 =
        ⟨{ s1 with transactions_created := s1.transactions_created + 1 },
          t1 ++ [.send env.sourceWallet outs], none⟩) := by
  unfold shapePhase
  by_cases hshape : env.shapeR < 0.4
  · rw [if_pos hshape]
    by_cases hdust : multiPer b env < 0.01
    · exact .inl (by rw [if_pos hdust])
    · rw [if_neg hdust]
      rcases hs : env.sendResult with e | u
      · exact .inr (.inl ⟨_, e, rfl, rfl⟩)
      · cases u
        exact .inr (.inr ⟨rfl, _, rfl⟩)
  · rw [if_neg hshape]
    by_cases hdust : simpleAmount b env < 0.01
    · exact .inl (by rw [if_pos hdust])
    · rw [if_neg hdust]
      rcases hs : env.sendResult with e | u
      · exact .inr (.inl ⟨_, e, rfl, rfl⟩)
      · cases u
        exact .inr (.inr ⟨rfl, _, rfl⟩)

theorem txBody_stats (faucet : String) (env : TxEnv) (s : Stats) :
    (txBody faucet env s).stats.blocks_generated = s.blocks_generated ∧
    s.transactions_created ≤ (txBody faucet env s).stats.transactions_created ∧
    (txBody faucet env s).stats.transactions_created ≤
      s.transactions_created + 1 ∧
    s.utxo_replenishments ≤ (txBody faucet env s).stats.utxo_replenishments ∧
    (txBody faucet env s).stats.utxo_replenishments ≤
      s.utxo_replenishments + 1 := by
  unfold txBody
  rcases hfp : fundingPhase faucet env s with r | ⟨b, s1, t1⟩
  · obtain ⟨h1, h2, h3, h4⟩ := fundingPhase_inl_stats faucet env s r hfp
    simp only []
    exact ⟨h1, le_of_eq h2.symm, by omega, h3, h4⟩
  · obtain ⟨h1, h2, h3, h4⟩ := fundingPhase_inr_stats faucet env s b s1 t1 hfp
    simp only []
    rcases shapePhase_spec env b s1 t1 with hsp | ⟨outs, e, -, hsp⟩ |
        ⟨-, outs, hsp⟩ <;>
      rw [hsp] <;> (refine ⟨?_, ?_, ?_, ?_, ?_⟩ <;> simp <;> omega)

theorem createTransaction_stats (faucet : String) (env : TxEnv) (s : Stats) :
    (createTransaction faucet env s).1 = (txBody faucet env s).stats := rfl

theorem createTransaction_trace (faucet : String) (env : TxEnv) (s : Stats) :
    (createTransaction faucet env s).2 = (txBody faucet env s).trace := rfl

theorem insertPair_values (l : List (String × ℚ)) (k : String) (v : ℚ)
    (hl : ∀ p ∈ l, p.2 = v) : ∀ p ∈ insertPair l k v, p.2 = v := by
  induction l with
  | nil =>
    intro p hp
    simp [insertPair] at hp
    subst hp
    rfl
  | cons hd tl ih =>
    intro p hp
    simp only [insertPair] at hp
    split at hp
    · rcases List.mem_cons.mp hp with h | h
      · subst h
        rfl
      · exact hl p (List.mem_cons_of_mem _ h)
    · rcases List.mem_cons.mp hp with h | h
      · subst h
        exact hl hd (List.mem_cons_self _ _)
      · exact ih (fun q hq => hl q (List.mem_cons_of_mem _ hq)) p h

theorem mkOutputs_values (dest : Nat → String) (n : Nat) (amt : ℚ) :
    ∀ p ∈ mkOutputs dest n amt, p.2 = amt := by
  have key : ∀ (l : List Nat) (acc : List (String × ℚ)),
      (∀ p ∈ acc, p.2 = amt) →
      ∀ p ∈ l.foldl (fun acc i => insertPair acc (dest i) amt) acc,
        p.2 = amt := by
    intro l
    induction l with
    | nil =>
      intro acc hacc
      simpa using hacc
    | cons hd tl ih =>
      intro acc hacc
      exact ih _ (insertPair_values _ _ _ hacc)
  exact key _ [] (by simp)

/-- C7: `_create_transaction` never propagates an exception: the two `except`
arms catch and swallow everything the body can raise (the result equals the
body's post-state in all cases), on any raised exception the
`transactions_created` counter is unchanged, and the counter changes only
when the send RPC succeeded. -/
theorem create_transaction_no_propagation (faucet : String) (env : TxEnv)
    (s : Stats) :
    createTransaction faucet env s =
      ((txBody faucet env s).stats, (txBody faucet env s).trace) ∧
    (∀ e, (txBody faucet env s).raised = some e →
      (txBody faucet env s).stats.transactions_created =
        s.transactions_created) ∧
    ((txBody faucet env s).stats.transactions_created ≠
        s.transactions_created → env.sendResult = .ok ()) := by
  refine ⟨rfl, ?_, ?_⟩
  · intro e he
    rcases hfp : fundingPhase faucet env s with r | ⟨b, s1, t1⟩
    · have hb : txBody faucet env s = r := by
        unfold txBody
        rw [hfp]
      rw [hb]
      exact (fundingPhase_inl_stats faucet env s r hfp).2.1
    · have hb : txBody faucet env s = shapePhase env b s1 t1 := by
        unfold txBody
        rw [hfp]
      obtain ⟨-, h2, -, -⟩ := fundingPhase_inr_stats faucet env s b s1 t1 hfp
      rw [hb] at he ⊢
      rcases shapePhase_spec env b s1 t1 with hsp | ⟨outs, e', hse, hsp⟩ |
          ⟨hse, outs, hsp⟩ <;> rw [hsp] at he ⊢
      · simp at he
      · simpa using h2
      · simp at he
  · intro hne
    rcases hfp : fundingPhase faucet env s with r | ⟨b, s1, t1⟩
    · have hb : txBody faucet env s = r := by
        unfold txBody
        rw [hfp]
      rw [hb] at hne
      exact absurd (fundingPhase_inl_stats faucet env s r hfp).2.1 hne
    · have hb : txBody faucet env s = shapePhase env b s1 t1 := by
        unfold txBody
        rw [hfp]
      obtain ⟨-, h2, -, -⟩ := fundingPhase_inr_stats faucet env s b s1 t1 hfp
      rw [hb] at hne
      rcases shapePhase_spec env b s1 t1 with hsp | ⟨outs, e', hse, hsp⟩ |
          ⟨hse, outs, hsp⟩
      · rw [hsp] at hne
        exact absurd h2 hne
      · rw [hsp] at hne
        simp at hne
        exact absurd h2 hne
      · exact hse

/-- A successful refund environment. -/
def refundEnvA : RefundEnv := ⟨"raddr", .ok ()⟩

/-- A transaction environment whose initial balance query fails. -/
def txEnvFail : TxEnv :=
  { sourceWallet := "light"
    sourceTier := "light"
    getbalance1 := .error (.rpcError none)
    refund := refundEnvA
    getbalance2 := .ok 50
    shapeR := 1/2
    numOutK := 0
    fracU := 0
    capU := 0
    destChoice := fun _ => "dest"
    sendResult := .ok () }

theorem create_transaction_no_propagation_witness :
    (txBody "default" txEnvFail initStats).stats.transactions_created =
      initStats.transactions_created :=
  (create_transaction_no_propagation "default" txEnvFail initStats).2.1
    (.rpcError none) (by decide)

/-- C2: `_refund_wallet` issues exactly one payment, from the faucet wallet
to the randomly chosen address, of amount 20 for tier `light`, 40 for
`normal`, and 60 for any other tier; it mines no block; the replenishment
counter is incremented exactly when that payment succeeds (the other two
counters never change); and inside `_create_transaction` a wallet whose
queried balance is below the 10.0 threshold triggers exactly this refund
payment as the first issued effect. -/
theorem refund_wallet_spec (faucet tier : String) (renv : RefundEnv)
    (s : Stats) (env : TxEnv) (s0 : Stats) (b : ℚ) :
    (refundWallet faucet tier renv s).trace =
      [.send faucet [(renv.chosenAddr, refundAmount tier)]] ∧
    (∀ e ∈ (refundWallet faucet tier renv s).trace, e.isMine = false) ∧
    refundAmount "light" = 20 ∧
    refundAmount "normal" = 40 ∧
    (tier ≠ "light" → tier ≠ "normal" → refundAmount tier = 60) ∧
    (refundWallet faucet tier renv s).stats.utxo_replenishments =
      s.utxo_replenishments + (if isOkE renv.sendResult then 1 else 0) ∧
    (refundWallet faucet tier renv s).stats.blocks_generated =
      s.blocks_generated ∧
    (refundWallet faucet tier renv s).stats.transactions_created =
      s.transactions_created ∧
    (env.getbalance1 = .ok b → b < 10 →
      ∃ rest, (createTransaction faucet env s0).2 =
        .send faucet [(env.refund.chosenAddr, refundAmount env.sourceTier)]
          :: rest) := by
  obtain ⟨hbk, htx, -, -⟩ := refundWallet_stats faucet tier renv s
  refine ⟨refundWallet_trace faucet tier renv s, ?_, by decide, by decide,
    ?_, ?_, hbk, htx, ?_⟩
  · intro e he
    rw [refundWallet_trace] at he
    simp at he
    subst he
    rfl
  · intro hl hn
    unfold refundAmount
    rw [if_neg hl, if_neg hn]
  · rcases hs : renv.sendResult with e | u
    · simp only [refundWallet, hs]
      split <;> simp [isOkE]
    · simp only [refundWallet, hs]
      simp [isOkE]
  · intro h1 hlt
    have htr := refundWallet_trace faucet env.sourceTier env.refund s0
    rw [createTransaction_trace]
    rcases hraised : (refundWallet faucet env.sourceTier env.refund s0).raised
      with _ | e
    · rcases hb2 : env.getbalance2 with e2 | b2
      · have hfp : fundingPhase faucet env s0 =
            .inl ⟨(refundWallet faucet env.sourceTier env.refund s0).stats,
              (refundWallet faucet env.sourceTier env.refund s0).trace,
              some e2⟩ := by
          simp only [fundingPhase, h1, if_pos hlt, hraised, hb2]
        have hbody : txBody faucet env s0 =
            ⟨(refundWallet faucet env.sourceTier env.refund s0).stats,
              (refundWallet faucet env.sourceTier env.refund s0).trace,
              some e2⟩ := by
          unfold txBody
          rw [hfp]
        rw [hbody]
        exact ⟨[], htr⟩
      · by_cases h1b : b2 < 1
        · have hfp : fundingPhase faucet env s0 =
              .inl ⟨(refundWallet faucet env.sourceTier env.refund s0).stats,
                (refundWallet faucet env.sourceTier env.refund s0).trace,
                none⟩ := by
            simp only [fundingPhase, h1, if_pos hlt, hraised, hb2, if_pos h1b]
          have hbody : txBody faucet env s0 =
              ⟨(refundWallet faucet env.sourceTier env.refund s0).stats,
                (refundWallet faucet env.sourceTier env.refund s0).trace,
                none⟩ := by
            unfold txBody
            rw [hfp]
          rw [hbody]
          exact ⟨[], htr⟩
        · have hfp : fundingPhase faucet env s0 =
              .inr (b2, (refundWallet faucet env.sourceTier env.refund s0).stats,
                (refundWallet faucet env.sourceTier env.refund s0).trace) := by
            simp only [fundingPhase, h1, if_pos hlt, hraised, hb2, if_neg h1b]
          have hbody : txBody faucet env s0 = shapePhase env b2
              (refundWallet faucet env.sourceTier env.refund s0).stats
              (refundWallet faucet env.sourceTier env.refund s0).trace := by
            unfold txBody
            rw [hfp]
          rw [hbody]
          rcases shapePhase_spec env b2
              (refundWallet faucet env.sourceTier env.refund s0).stats
              (refundWallet faucet env.sourceTier env.refund s0).trace
            with hsp | ⟨outs, e', -, hsp⟩ | ⟨-, outs, hsp⟩ <;> rw [hsp]
          · exact ⟨[], htr⟩
          · exact ⟨[.send env.sourceWallet outs], by rw [htr]; rfl⟩
          · exact ⟨[.send env.sourceWallet outs], by rw [htr]; rfl⟩
    · have hfp : fundingPhase faucet env s0 =
          .inl ⟨(refundWallet faucet env.sourceTier env.refund s0).stats,
            (refundWallet faucet env.sourceTier env.refund s0).trace,
            some e⟩ := by
        simp only [fundingPhase, h1, if_pos hlt, hraised]
      have hbody : txBody faucet env s0 =
          ⟨(refundWallet faucet env.sourceTier env.refund s0).stats,
            (refundWallet faucet env.sourceTier env.refund s0).trace,
            some e⟩ := by
        unfold txBody
        rw [hfp]
      rw [hbody]
      exact ⟨[], htr⟩

/-- A transaction environment with a low first balance (5 < 10), triggering
the refund. -/
def txEnvLow : TxEnv :=
  { sourceWallet := "light"
    sourceTier := "light"
    getbalance1 := .ok 5
    refund := refundEnvA
    getbalance2 := .ok 25
    shapeR := 1/2
    numOutK := 0
    fracU := 0
    capU := 0
    destChoice := fun _ => "dest"
    sendResult := .ok () }

theorem refund_wallet_spec_witness :
    ∃ rest, (createTransaction "default" txEnvLow initStats).2 =
      .send "default"
        [(txEnvLow.refund.chosenAddr, refundAmount txEnvLow.sourceTier)]
        :: rest :=
  (refund_wallet_spec "default" "heavy" refundEnvA initStats txEnvLow
    initStats 5).2.2.2.2.2.2.2.2 rfl (by norm_num)

/-- C8: when the queried balance is at least the 10.0 operating threshold,
the `ensure_funded` check inside `_create_transaction` mutates nothing at
the daemon on the faucet's behalf: the replenishment counter is unchanged
and no payment is issued from the faucet wallet. -/
theorem ensure_funded_idempotent (faucet : String) (env : TxEnv) (s : Stats)
    (b : ℚ) (h1 : env.getbalance1 = .ok b) (h2 : 10 ≤ b) :
    (createTransaction faucet env s).1.utxo_replenishments =
      s.utxo_replenishments ∧
    (env.sourceWallet ≠ faucet →
      ∀ e ∈ (createTransaction faucet env s).2,
        e.isSendFrom faucet = false) := by
  have hfp : fundingPhase faucet env s = .inr (b, s, []) := by
    simp [fundingPhase, h1, not_lt.mpr h2]
  have hb : txBody faucet env s = shapePhase env b s [] := by
    unfold txBody
    rw [hfp]
  constructor
  · rw [createTransaction_stats, hb]
    rcases shapePhase_spec env b s [] with hsp | ⟨outs, e, -, hsp⟩ |
        ⟨-, outs, hsp⟩ <;> rw [hsp]
  · intro hne e he
    rw [createTransaction_trace, hb] at he
    rcases shapePhase_spec env b s [] with hsp | ⟨outs, e', -, hsp⟩ |
        ⟨-, outs, hsp⟩ <;> rw [hsp] at he
    · simp at he
    · simp at he
      subst he
      simp only [Effect.isSendFrom]
      exact beq_eq_false_iff_ne.mpr hne
    · simp at he
      subst he
      simp only [Effect.isSendFrom]
      exact beq_eq_false_iff_ne.mpr hne

/-- A well-funded transaction environment taking the simple branch. -/
def txEnvHigh : TxEnv :=
  { sourceWallet := "light"
    sourceTier := "light"
    getbalance1 := .ok 50
    refund := refundEnvA
    getbalance2 := .ok 50
    shapeR := 1/2
    numOutK := 0
    fracU := 0
    capU := 0
    destChoice := fun _ => "dest"
    sendResult := .ok () }

theorem ensure_funded_idempotent_witness :
    (createTransaction "default" txEnvHigh initStats).1.utxo_replenishments =
      initStats.utxo_replenishments :=
  (ensure_funded_idempotent "default" txEnvHigh initStats 50 rfl
    (by norm_num)).1

/-- C3: with the funding prologue satisfied (balance `b ≥ 10`), a shape draw
below 0.4 builds the multi-output transaction: 2-5 destination draws,
per-output amount `multiPer` (the 20-50%-of-balance total, capped by
U[5,15], divided by the output count and rounded to 8 decimals), every
output of the issued `sendmany` carrying exactly that amount, and a
per-output amount below 0.01 aborts with no send RPC issued; a shape draw
at or above 0.4 builds the simple transaction with one destination and
amount `simpleAmount` (10-50% of balance capped by U[1,5], rounded to 8
decimals), likewise aborting below 0.01 with no send RPC. -/
theorem create_transaction_shapes (faucet : String) (env : TxEnv) (s : Stats)
    (b : ℚ) (h1 : env.getbalance1 = .ok b) (h2 : 10 ≤ b) :
    (env.shapeR < 0.4 →
      2 ≤ randint 2 5 env.numOutK ∧ randint 2 5 env.numOutK ≤ 5 ∧
      (multiPer b env < 0.01 →
        (createTransaction faucet env s).2 = [] ∧
        (createTransaction faucet env s).1 = s) ∧
      (0.01 ≤ multiPer b env →
        (createTransaction faucet env s).2 =
          [.send env.sourceWallet
            (mkOutputs env.destChoice (randint 2 5 env.numOutK)
              (multiPer b env))] ∧
        (∀ p ∈ mkOutputs env.destChoice (randint 2 5 env.numOutK)
            (multiPer b env), p.2 = multiPer b env))) ∧
    (0.4 ≤ env.shapeR →
      (simpleAmount b env < 0.01 →
        (createTransaction faucet env s).2 = [] ∧
        (createTransaction faucet env s).1 = s) ∧
      (0.01 ≤ simpleAmount b env →
        (createTransaction faucet env s).2 =
          [.send env.sourceWallet
            [(env.destChoice 0, simpleAmount b env)]])) := by
  have hfp : fundingPhase faucet env s = .inr (b, s, []) := by
    simp [fundingPhase, h1, not_lt.mpr h2]
  have hb : txBody faucet env s = shapePhase env b s [] := by
    unfold txBody
    rw [hfp]
  have hct1 : (createTransaction faucet env s).1 =
      (shapePhase env b s []).stats := by
    rw [createTransaction_stats, hb]
  have hct2 : (createTransaction faucet env s).2 =
      (shapePhase env b s []).trace := by
    rw [createTransaction_trace, hb]
  constructor
  · intro hshape
    refine ⟨randint_lower 2 5 _, randint_upper 2 5 _ (by norm_num), ?_, ?_⟩
    · intro hdust
      rw [hct2, hct1]
      unfold shapePhase
      rw [if_pos hshape, if_pos hdust]
      exact ⟨rfl, rfl⟩
    · intro hge
      rw [hct2]
      unfold shapePhase
      rw [if_pos hshape, if_neg (not_lt.mpr hge)]
      refine ⟨?_, mkOutputs_values _ _ _⟩
      rcases hs : env.sendResult with e | u <;> rfl
  · intro hshape
    have hns : ¬ env.shapeR < 0.4 := not_lt.mpr hshape
    constructor
    · intro hdust
      rw [hct2, hct1]
      unfold shapePhase
      rw [if_neg hns, if_pos hdust]
      exact ⟨rfl, rfl⟩
    · intro hge
      rw [hct2]
      unfold shapePhase
      rw [if_neg hns, if_neg (not_lt.mpr hge)]
      rcases hs : env.sendResult with e | u <;> rfl

theorem create_transaction_shapes_witness :
    (createTransaction "default" txEnvHigh initStats).2 =
      [.send txEnvHigh.sourceWallet
        [(txEnvHigh.destChoice 0, simpleAmount 50 txEnvHigh)]] :=
  ((create_transaction_shapes "default" txEnvHigh initStats 50 rfl
    (by norm_num)).2 (by norm_num [txEnvHigh])).2
    (by norm_num [simpleAmount, round8, uniform, min_def, txEnvHigh])

/-- Oracle environment for `_generate_blocks` (generate.py 473-520): the
per-block `random.random()` draw and `randint` draw behind
`_determine_tx_count`, the per-(block, call) transaction environments, the
per-block `random.choice` mining address, and the outcome of the per-block
`generatetoaddress` call. -/
structure BlockEnv where
  rand : Nat → ℚ
  randK : Nat → Nat
  txEnv : Nat → Nat → TxEnv
  mineAddr : Nat → String
  mineResult : Nat → Except PyErr Unit

/-- The inner `for _ in range(tx_count)` loop (generate.py 494-500): invoke
`_create_transaction` `count` times, threading the statistics and
accumulating the issued effects in call order. -/
def runTxs (faucet : String) (envs : Nat → TxEnv) :
    Nat → Stats → Stats × List Effect
  | 0, s => (s, [])
  | n + 1, s =>
    let r := createTransaction faucet (envs 0) s
    let rest := runTxs faucet (fun i => envs (i + 1)) n r.1
    (rest.1, r.2 ++ rest.2)

/-- The `for block_num in range(blocks_to_generate)` loop of
`_generate_blocks` (generate.py 490-517): per block, sample the transaction
count, run that many `_create_transaction` calls, mine one block to a
random address (a failure of this call propagates, carried in the `.inr`
branch) and increment `blocks_generated` by one.  The periodic progress
report (lines 507-517) performs no daemon mutation and is not modelled. -/
def generateBlocksLoop (cfg : Config) (faucet : String) (env : BlockEnv) :
    Nat → Nat → Stats → List Effect →
    (Stats × List Effect) ⊕ (PyErr × Stats × List Effect)
  | _, 0, s, t => .inl (s, t)
  | i, n + 1, s, t =>
    let txc := determineTxCount cfg (env.rand i) (env.randK i)
    let r := runTxs faucet (env.txEnv i) txc s
    match env.mineResult i with
    | .error e => .inr (e, r.1, t ++ r.2)
    | .ok _ =>
      generateBlocksLoop cfg faucet env (i + 1) n
        { r.1 with blocks_generated := r.1.blocks_generated + 1 }
        (t ++ r.2 ++ [.mine 1 (env.mineAddr i)])

/-- `Generator._generate_blocks` (generate.py 473-520): compute
`blocks_to_generate = target_blocks - current_height`; when it is ≤ 0
return immediately without touching the daemon, otherwise run the block
loop exactly that many times. -/
def generateBlocks (cfg : Config) (faucet : String) (env : BlockEnv)
    (currentHeight : Int) (s : Stats) :
    (Stats × List Effect) ⊕ (PyErr × Stats × List Effect) :=
  if cfg.target_blocks - currentHeight ≤ 0 then .inl (s, [])
  else
    generateBlocksLoop cfg faucet env 0
      (cfg.target_blocks - currentHeight).toNat s []

/-- The statistics component of either outcome of the block loop. -/
def genStats :
    (Stats × List Effect) ⊕ (PyErr × Stats × List Effect) → Stats
  | .inl (s, _) => s
  | .inr (_, s, _) => s

theorem createTransaction_blocks (faucet : String) (env : TxEnv) (s : Stats) :
    (createTransaction faucet env s).1.blocks_generated =
      s.blocks_generated := by
  rw [createTransaction_stats]
  exact (txBody_stats faucet env s).1

theorem createTransaction_le (faucet : String) (env : TxEnv) (s : Stats) :
    Stats.le s (createTransaction faucet env s).1 := by
  rw [createTransaction_stats]
  obtain ⟨h1, h2, -, h4, -⟩ := txBody_stats faucet env s
  exact ⟨le_of_eq h1.symm, h2, h4⟩

theorem runTxs_blocks (faucet : String) :
    ∀ (n : Nat) (envs : Nat → TxEnv) (s : Stats),
    (runTxs faucet envs n s).1.blocks_generated = s.blocks_generated := by
  intro n
  induction n with
  | zero =>
    intro envs s
    rfl
  | succ k ih =>
    intro envs s
    simp only [runTxs]
    rw [ih]
    exact createTransaction_blocks faucet (envs 0) s

theorem runTxs_le (faucet : String) :
    ∀ (n : Nat) (envs : Nat → TxEnv) (s : Stats),
    Stats.le s (runTxs faucet envs n s).1 := by
  intro n
  induction n with
  | zero =>
    intro envs s
    exact ⟨le_refl _, le_refl _, le_refl _⟩
  | succ k ih =>
    intro envs s
    simp only [runTxs]
    have h1 := createTransaction_le faucet (envs 0) s
    have h2 := ih (fun i => envs (i + 1)) (createTransaction faucet (envs 0) s).1
    exact ⟨le_trans h1.1 h2.1, le_trans h1.2.1 h2.2.1,
      le_trans h1.2.2 h2.2.2⟩

theorem generateBlocksLoop_le (cfg : Config) (faucet : String)
    (env : BlockEnv) :
    ∀ (n i : Nat) (s : Stats) (t : List Effect),
    Stats.le s (genStats (generateBlocksLoop cfg faucet env i n s t)) := by
  intro n
  induction n with
  | zero =>
    intro i s t
    exact ⟨le_refl _, le_refl _, le_refl _⟩
  | succ k ih =>
    intro i s t
    simp only [generateBlocksLoop]
    have hr := runTxs_le faucet
      (determineTxCount cfg (env.rand i) (env.randK i)) (env.txEnv i) s
    rcases hm : env.mineResult i with e | u
    · exact hr
    · have hnext := ih (i + 1)
        { (runTxs faucet (env.txEnv i)
            (determineTxCount cfg (env.rand i) (env.randK i)) s).1 with
          blocks_generated :=
            (runTxs faucet (env.txEnv i)
              (determineTxCount cfg (env.rand i) (env.randK i)) s).1.blocks_generated
              + 1 }
        (t ++ (runTxs faucet (env.txEnv i)
          (determineTxCount cfg (env.rand i) (env.randK i)) s).2
          ++ [.mine 1 (env.mineAddr i)])
      exact ⟨le_trans hr.1 (le_trans (Nat.le_succ _) hnext.1),
        le_trans hr.2.1 hnext.2.1, le_trans hr.2.2 hnext.2.2⟩

theorem generateBlocksLoop_blocks (cfg : Config) (faucet : String)
    (env : BlockEnv) (hok : ∀ i, env.mineResult i = .ok ()) :
    ∀ (n i : Nat) (s : Stats) (t : List Effect),
    ∃ s' t', generateBlocksLoop cfg faucet env i n s t = .inl (s', t') ∧
      s'.blocks_generated = s.blocks_generated + n := by
  intro n
  induction n with
  | zero =>
    intro i s t
    exact ⟨s, t, rfl, rfl⟩
  | succ k ih =>
    intro i s t
    simp only [generateBlocksLoop, hok i]
    obtain ⟨s', t', heq, hcount⟩ := ih (i + 1) _ _
    refine ⟨s', t', heq, ?_⟩
    rw [hcount]
    simp only []
    rw [runTxs_blocks]
    omega

/-- C5: the block-generation loop is a no-op when the current height already
meets or exceeds the target (nothing issued, statistics untouched), and on
normal completion (every per-block mining call succeeds) it runs exactly
`target_blocks - current_height` iterations, each incrementing
`blocks_generated` by one, so the counter grows by exactly that difference. -/
theorem generate_blocks_spec (cfg : Config) (faucet : String)
    (env : BlockEnv) (currentHeight : Int) (s : Stats) :
    (cfg.target_blocks ≤ currentHeight →
      generateBlocks cfg faucet env currentHeight s = .inl (s, [])) ∧
    ((∀ i, env.mineResult i = .ok ()) →
      ∃ s' t', generateBlocks cfg faucet env currentHeight s = .inl (s', t') ∧
        s'.blocks_generated = s.blocks_generated +
          (cfg.target_blocks - currentHeight).toNat) := by
  constructor
  · intro h
    unfold generateBlocks
    rw [if_pos (by omega)]
  · intro hok
    unfold generateBlocks
    by_cases hle : cfg.target_blocks - currentHeight ≤ 0
    · rw [if_pos hle]
      exact ⟨s, [], rfl, by omega⟩
    · rw [if_neg hle]
      exact generateBlocksLoop_blocks cfg faucet env hok _ 0 s []

/-- A block environment whose mining calls all succeed. -/
def blockEnvA : BlockEnv :=
  { rand := fun _ => 1/2
    randK := fun _ => 0
    txEnv := fun _ _ => txEnvHigh
    mineAddr := fun _ => "maddr"
    mineResult := fun _ => .ok () }

theorem generate_blocks_spec_witness :
    generateBlocks normalConfig "default" blockEnvA 200 initStats =
      .inl (initStats, []) :=
  (generate_blocks_spec normalConfig "default" blockEnvA 200 initStats).1
    (by norm_num [normalConfig])

/-- C9: the three statistics counters are initialised to zero and are
monotonically non-decreasing across every modelled operation: each single
mutation is an increment by one — `_refund_wallet` leaves the block and
transaction counters unchanged and raises the replenishment counter by at
most one, `_create_transaction` leaves the block counter unchanged and
raises each of the other two by at most one, and the block-generation loop
never decreases any counter, whether it completes normally or propagates a
mining failure. -/
theorem stats_monotone :
    initStats = ⟨0, 0, 0⟩ ∧
    (∀ faucet tier renv s,
      Stats.le s (refundWallet faucet tier renv s).stats ∧
      (refundWallet faucet tier renv s).stats.blocks_generated =
        s.blocks_generated ∧
      (refundWallet faucet tier renv s).stats.transactions_created =
        s.transactions_created ∧
      (refundWallet faucet tier renv s).stats.utxo_replenishments ≤
        s.utxo_replenishments + 1) ∧
    (∀ faucet env s,
      Stats.le s (createTransaction faucet env s).1 ∧
      (createTransaction faucet env s).1.blocks_generated =
        s.blocks_generated ∧
      (createTransaction faucet env s).1.transactions_created ≤
        s.transactions_created + 1 ∧
      (createTransaction faucet env s).1.utxo_replenishments ≤
        s.utxo_replenishments + 1) ∧
    (∀ cfg faucet env h s,
      Stats.le s (genStats (generateBlocks cfg faucet env h s))) := by
  refine ⟨rfl, ?_, ?_, ?_⟩
  · intro faucet tier renv s
    obtain ⟨h1, h2, h3, h4⟩ := refundWallet_stats faucet tier renv s
    exact ⟨⟨le_of_eq h1.symm, le_of_eq h2.symm, h3⟩, h1, h2, h4⟩
  · intro faucet env s
    obtain ⟨h1, h2, h3, h4, h5⟩ := txBody_stats faucet env s
    rw [createTransaction_stats]
    exact ⟨⟨le_of_eq h1.symm, h2, h4⟩, h1, h3, h5⟩
  · intro cfg faucet env h s
    unfold generateBlocks
    by_cases hle : cfg.target_blocks - h ≤ 0
    · rw [if_pos hle]
      exact ⟨le_refl _, le_refl _, le_refl _⟩
    · rw [if_neg hle]
      exact generateBlocksLoop_le cfg faucet env _ 0 s []

end Regtest
